import Mathlib

/-!
Verification of the Liar's Bar client core: a shallow embedding of the
chain-event synchronization engine (transaction poller, event reducer,
connection-health classifier) and the confidential-card pipeline
(decryption flow, card cache, join-table action), together with proofs
of the behavioural properties stated for them.

Sources embedded:
 * `src/lib/solana/useGameEvents.ts` — `updateGameState`, `poll`,
   `useConnectionStatus`;
 * `src/lib/solana/gameTypes.ts` — `createInitialGameState`,
   `getEncryptedFingerprint`, `loadCachedCards`, `extractHandle`,
   `decryptMyCards`, `joinTable`, the auto-decrypt trigger effect.
-/

namespace LiarsBar

/-! ## Domain events (`GameEventPayload` in gameTypes.ts) -/

inductive GameEventPayload where
  | liarsTableCreated (tableId : String)
  | playerJoined (tableId player : String)
  | suffleCardsForPlayer (tableId player next : String)
  | roundStarted (tableId : String)
  | tableTrun (tableId player : String)
  | cardPlaced (tableId player : String)
  | liarCalled (tableId caller : String)
  | emptyBulletFired (tableId player : String)
  | playerEleminated (tableId player : String)
  | gameOver (tableId : String)
  | gameWinner (tableId player : String)
  deriving DecidableEq, Repr

/-! ## Game state (`GameState` in gameTypes.ts) -/

structure Move where
  player : String
  timestamp : Nat
  deriving DecidableEq, Repr

structure GameState where
  tableId : String
  players : List String
  activePlayers : List String
  currentTurn : Option String
  moves : List Move
  roundActive : Bool
  liarCaller : Option String
  lastEvent : Option GameEventPayload
  deriving DecidableEq, Repr

/-- `createInitialGameState` from gameTypes.ts. -/
def createInitialGameState (tableId : String) : GameState :=
  { tableId := tableId
    players := []
    activePlayers := []
    currentTurn := none
    moves := []
    roundActive := false
    liarCaller := none
    lastEvent := none }

/-- `updateGameState` from useGameEvents.ts: the per-event state reducer.
`now` stands for the `Date.now()` call used to timestamp a placed card. -/
def updateGameState (now : Nat) (prev : GameState) (payload : GameEventPayload) :
    GameState :=
  match payload with
  | .playerJoined _ player =>
      let alreadyExists := prev.players.contains player
      { prev with
        players := if alreadyExists then prev.players else prev.players ++ [player]
        activePlayers :=
          if alreadyExists then prev.activePlayers else prev.activePlayers ++ [player]
        lastEvent := some payload }
  | .roundStarted _ =>
      { prev with
        roundActive := true
        currentTurn := none
        moves := []
        liarCaller := none
        lastEvent := some payload }
  | .suffleCardsForPlayer _ _ next =>
      { prev with currentTurn := some next, lastEvent := some payload }
  | .tableTrun _ player =>
      { prev with currentTurn := some player, lastEvent := some payload }
  | .cardPlaced _ player =>
      { prev with
        moves := prev.moves ++ [{ player := player, timestamp := now }]
        lastEvent := some payload }
  | .liarCalled _ caller =>
      { prev with liarCaller := some caller, lastEvent := some payload }
  | .playerEleminated _ player =>
      { prev with
        activePlayers := prev.activePlayers.filter (fun p => p ≠ player)
        lastEvent := some payload }
  | _ => { prev with lastEvent := some payload }

/-- Applying a timed sequence of decoded events to a state. -/
def applyEvents (s : GameState) (evs : List (Nat × GameEventPayload)) : GameState :=
  evs.foldl (fun st p => updateGameState p.1 st p.2) s

/-- The invariant stated for GameState: `activePlayers ⊆ players` and, when
set, `currentTurn ∈ players`. -/
def StateInv (s : GameState) : Prop :=
  s.activePlayers ⊆ s.players ∧ ∀ x, s.currentTurn = some x → x ∈ s.players

instance (s : GameState) : Decidable (StateInv s) := by
  unfold StateInv
  have : Decidable (∀ x, s.currentTurn = some x → x ∈ s.players) := by
    cases h : s.currentTurn with
    | none => exact .isTrue (by simp [h])
    | some y =>
        by_cases hy : y ∈ s.players
        · exact .isTrue (by simp [h, hy])
        · exact .isFalse (by simp [h, hy])
  exact instDecidableAnd

/-! ## Transaction poller (`poll` in useGameEvents.ts)

One poll cycle, as a function of the cursor state, the signature listing
returned by `getSignaturesForAddress` (newest first, as Solana returns it)
and the per-signature outcome of `getTransaction`.  A fetched transaction
is represented by the decode results of its log lines: each line either
yields a table-filtered event (`some e`) or is skipped (`none`), mirroring
the inner decode-and-filter `try`/`catch`. -/

structure SigInfo where
  signature : String
  err : Bool
  deriving DecidableEq, Repr

/-- Cursor state of one table subscription: `lastSignature` and
`isInitialized` of the polling effect. -/
structure PollState where
  lastSignature : Option String
  isInitialized : Bool
  deriving DecidableEq, Repr

/-- Fresh subscription: `lastSignature` undefined, not initialized. -/
def PollState.fresh : PollState := { lastSignature := none, isInitialized := false }

/-- The inner loop of `poll`: process signatures oldest-to-newest, skipping
failed transactions (`sigInfo.err`), skipping a signature whose fetch throws
(the per-transaction `catch`), and decoding the log lines of each fetched
body. -/
def processSigs (fetchTx : String → Except Unit (List (Option GameEventPayload))) :
    List SigInfo → List GameEventPayload
  | [] => []
  | sigInfo :: rest =>
      if sigInfo.err then processSigs fetchTx rest
      else
        match fetchTx sigInfo.signature with
        | .error _ => processSigs fetchTx rest
        | .ok logs => logs.reduceOption ++ processSigs fetchTx rest

/-- One `poll` cycle from useGameEvents.ts.  Returns the new cursor state and
the events delivered to consumers, in order. -/
def poll (st : PollState)
    (signatures : List SigInfo)
    (fetchTx : String → Except Unit (List (Option GameEventPayload))) :
    PollState × List GameEventPayload :=
  match signatures with
  | [] => (st, [])
  | newest :: _ =>
      if st.isInitialized then
        let events := processSigs fetchTx signatures.reverse
        ({ st with lastSignature := some newest.signature }, events)
      else
        ({ lastSignature := some newest.signature, isInitialized := true }, [])

/-! ## Connection-health classifier (`useConnectionStatus`) -/

inductive ConnectionStatus where
  | connected
  | disconnected
  | reconnecting
  deriving DecidableEq, Repr

structure HealthState where
  status : ConnectionStatus
  failCount : Nat
  deriving DecidableEq, Repr

/-- Hook start: `useState("connected")`, `failCountRef = 0`. -/
def HealthState.start : HealthState := { status := .connected, failCount := 0 }

/-- The initial `getSlot` check run when the hook mounts. -/
def initialHealthCheck (ok : Bool) (_st : HealthState) : HealthState :=
  if ok then { status := .connected, failCount := 0 }
  else { status := .disconnected, failCount := 1 }

/-- One periodic `getSlot` health check (the `setInterval` body). -/
def periodicHealthCheck (ok : Bool) (st : HealthState) : HealthState :=
  if ok then { status := .connected, failCount := 0 }
  else
    let n := st.failCount + 1
    { status := if 2 ≤ n then .disconnected else .reconnecting, failCount := n }

/-- The classifier run on a sequence of probe outcomes: the first outcome is
the mount-time initial check, the rest are periodic checks. -/
def runHealth (probes : List Bool) : HealthState :=
  match probes with
  | [] => HealthState.start
  | p :: rest => rest.foldl (fun s q => periodicHealthCheck q s) (initialHealthCheck p HealthState.start)

/-! ## Encrypted handles and the tolerant extraction (`extractHandle`)

A wire-level `Euint128` value as the account-decoding layer may deliver it:
a BN-backed object (`_bn` present), a tuple-wrapped object (field `"0"`),
an array, or anything else. -/

inductive HandleEnc where
  | bn (v : Nat)
  | keyed (v : Nat)
  | arr (vs : List Nat)
  | other
  deriving DecidableEq, Repr

/-- `extractHandle` from gameTypes.ts: try the accepted shapes in priority
order, falling back to zero.  (A `keyed 0` field is falsy in the source and
falls through the remaining checks to the zero fallback, which coincides
with its value.) -/
def extractHandle : HandleEnc → Nat
  | .bn v => v
  | .keyed v => v
  | .arr (v :: _) => v
  | .arr [] => 0
  | .other => 0

/-- The result of calling `toString()` on the raw wire value (used by the
cache fingerprint): a BN prints its decimal value, a plain object prints the
default object string, an array comma-joins its elements, and a missing
value becomes `""` through the `?? ""` fallback. -/
def encToString : HandleEnc → String
  | .bn v => toString v
  | .keyed _ => "[object Object]"
  | .arr vs => String.intercalate "," (vs.map toString)
  | .other => ""

/-- One encrypted card: a (shape, value) pair of wire-level handles. -/
structure EncCard where
  shape : HandleEnc
  value : HandleEnc
  deriving DecidableEq, Repr

/-- `DecryptedCard` from gameTypes.ts. -/
structure DecryptedCard where
  shape : Nat
  value : Nat
  deriving DecidableEq, Repr

/-! ## Card cache (`getEncryptedFingerprint` / `loadCachedCards`) -/

structure CardCache where
  fingerprint : String
  cards : List DecryptedCard
  deriving DecidableEq, Repr

/-- `getEncryptedFingerprint` from gameTypes.ts. -/
def getEncryptedFingerprint (encryptedCards : List EncCard) : String :=
  String.intercalate "|"
    (encryptedCards.map fun c => encToString c.shape ++ ":" ++ encToString c.value)

/-- `loadCachedCards` from gameTypes.ts, over the stored entry for the
(table, wallet) key.  Returns the loaded cards (or `none`) together with the
stored entry after the call (eviction = `none`). -/
def loadCachedCards (stored : Option CardCache) (encryptedCards : List EncCard) :
    Option (List DecryptedCard) × Option CardCache :=
  match stored with
  | none => (none, none)
  | some cached =>
      let currentFingerprint := getEncryptedFingerprint encryptedCards
      if cached.fingerprint = currentFingerprint ∧ 0 < cached.cards.length then
        (some cached.cards, some cached)
      else
        (none, none)

/-- `saveCachedCards` from gameTypes.ts: the entry written on pipeline
success. -/
def saveCachedCards (encryptedCards : List EncCard) (cards : List DecryptedCard) :
    CardCache :=
  { fingerprint := getEncryptedFingerprint encryptedCards, cards := cards }

/-! ## Allowance address derivation -/

/-- The 16-byte little-endian encoding of a 128-bit handle, as built by
`deriveAllowancePda`. -/
def handleToLeBytes (handle : Nat) : List Nat :=
  (List.range 16).map fun i => handle / 256 ^ i % 256

/-- `deriveAllowancePda` from gameTypes.ts: the PDA is a one-way function of
the seed bytes; we record the seeds themselves. -/
def deriveAllowancePda (handle : Nat) (allowedAddress : String) : List Nat × String :=
  (handleToLeBytes handle, allowedAddress)

/-! ## Card-decryption pipeline (`decryptMyCards`)

The pipeline as a function of its environment (wallet connectivity, the
player-record fetch outcome, the grant submission/confirmation outcome and
the per-card decrypt outcomes) and the session state it mutates. -/

structure PipelineState where
  myCards : List DecryptedCard
  isDecryptingCards : Bool
  decryptFailed : Bool
  cardHandleMap : List ((String × String) × DecryptedCard)
  cache : Option CardCache
  deriving DecidableEq, Repr

/-- JS `Map.set`: overwrite the binding when the key exists, append
otherwise. -/
def mapSet (m : List ((String × String) × DecryptedCard)) (k : String × String)
    (v : DecryptedCard) : List ((String × String) × DecryptedCard) :=
  if (m.map Prod.fst).contains k then
    m.map fun p => if p.1 = k then (k, v) else p
  else
    m ++ [(k, v)]

structure PipelineEnv where
  /-- `publicKey && signMessage && signTransaction && anchorWallet &&
  sendTransaction` all present. -/
  walletConnected : Bool
  /-- Outcome of fetching the calling identity's on-chain player record:
  a thrown error, or its held-card list. -/
  playerFetch : Except Unit (List EncCard)
  /-- Whether submission and confirmation of the access-grant transaction
  succeed (a failure throws into the pipeline's `catch`). -/
  grantOk : Bool
  /-- Outcome of the i-th per-card decrypt request against the confidential
  network: a thrown error, or the (shape, value) plaintexts. -/
  decryptAt : Nat → Except Unit (Nat × Nat)

structure PipelineResult where
  /-- The list the invocation returns. -/
  ret : List DecryptedCard
  /-- Session state after the invocation. -/
  state : PipelineState
  /-- Number of player-record fetches performed. -/
  fetches : Nat
  /-- Number of access-grant transactions submitted. -/
  grants : Nat
  deriving Repr

/-- Step 5 of the pipeline: decrypt one card at a time, appending to
`myCards` and the handle map after each success; the first failure throws,
aborting the remaining cards but preserving those already revealed. -/
def decryptLoop (decryptAt : Nat → Except Unit (Nat × Nat)) :
    List (String × String) → Nat → List DecryptedCard → PipelineState →
    Option (List DecryptedCard) × PipelineState
  | [], _, acc, st => (some acc, st)
  | h :: rest, i, acc, st =>
      match decryptAt i with
      | .error _ => (none, st)
      | .ok (s, v) =>
          let card : DecryptedCard := { shape := s, value := v }
          decryptLoop decryptAt rest (i + 1) (acc ++ [card])
            { st with
              myCards := st.myCards ++ [card]
              cardHandleMap := mapSet st.cardHandleMap h card }

/-- `decryptMyCards` from gameTypes.ts. -/
def decryptMyCards (env : PipelineEnv) (st : PipelineState) : PipelineResult :=
  if !env.walletConnected then
    { ret := [], state := st, fetches := 0, grants := 0 }
  else
    let st1 := { st with isDecryptingCards := true }
    match env.playerFetch with
    | .error _ =>
        { ret := []
          state := { st1 with decryptFailed := true, isDecryptingCards := false }
          fetches := 1, grants := 0 }
    | .ok cards =>
        if cards.isEmpty then
          { ret := []
            state := { st1 with isDecryptingCards := false }
            fetches := 1, grants := 0 }
        else
          let handles := cards.map fun c =>
            (toString (extractHandle c.shape), toString (extractHandle c.value))
          if !env.grantOk then
            { ret := []
              state := { st1 with decryptFailed := true, isDecryptingCards := false }
              fetches := 1, grants := 1 }
          else
            match decryptLoop env.decryptAt handles 0 [] st1 with
            | (none, st2) =>
                { ret := []
                  state := { st2 with decryptFailed := true, isDecryptingCards := false }
                  fetches := 1, grants := 1 }
            | (some done, st2) =>
                { ret := done
                  state := { st2 with
                    cache := some (saveCachedCards cards done)
                    isDecryptingCards := false }
                  fetches := 1, grants := 1 }

/-! ## Auto-decrypt trigger (the load-cache-or-decrypt effect) -/

inductive TriggerAction where
  | idle
  | setFromCache (cards : List DecryptedCard)
  | invokePipeline
  deriving DecidableEq, Repr

structure TriggerEnv where
  hasPublicKey : Bool
  myEncryptedCards : List EncCard
  myCards : List DecryptedCard
  isDecryptingCards : Bool
  decryptFailed : Bool
  /-- `gameState === "playing"`. -/
  isPlaying : Bool
  cache : Option CardCache
  deriving Repr

/-- The effect in gameTypes.ts that either loads the cached decrypted cards
or triggers the pipeline. -/
def autoDecryptTrigger (env : TriggerEnv) : TriggerAction :=
  if !env.hasPublicKey || env.myEncryptedCards.isEmpty || !env.myCards.isEmpty then
    .idle
  else if env.isDecryptingCards || env.decryptFailed then
    .idle
  else if !env.isPlaying then
    .idle
  else
    match (loadCachedCards env.cache env.myEncryptedCards).1 with
    | some cached => .setFromCache cached
    | none => .invokePipeline

/-! ## `joinTable` -/

structure JoinEnv where
  /-- `publicKey && anchorWallet && sendTransaction` all present. -/
  walletConnected : Bool
  characterId : String
  /-- Character ids already taken in the fetched table data. -/
  takenCharacters : List String
  /-- `getAccountInfo` on the derived player record: a thrown error, or
  whether the account exists. -/
  accountFetch : Except Unit Bool
  simulateOk : Bool
  sendOk : Bool
  confirmOk : Bool

structure JoinResult where
  ok : Bool
  /-- User-facing error string after the call (only `joinTable`'s own
  writes). -/
  error : Option String
  /-- Join transactions built. -/
  txBuilt : Nat
  /-- Join transactions signed by the wallet. -/
  txSigned : Nat
  /-- Join transactions submitted to the ledger. -/
  txSubmitted : Nat
  /-- `fetchTable` refetches performed. -/
  refetches : Nat
  deriving DecidableEq, Repr

/-- `joinTable` from gameTypes.ts. -/
def joinTable (env : JoinEnv) : JoinResult :=
  if !env.walletConnected then
    { ok := false, error := some "Wallet not connected"
      txBuilt := 0, txSigned := 0, txSubmitted := 0, refetches := 0 }
  else if env.characterId = "" then
    { ok := false, error := some "Please select a character"
      txBuilt := 0, txSigned := 0, txSubmitted := 0, refetches := 0 }
  else if env.takenCharacters.contains env.characterId then
    { ok := false, error := some "This character is already taken by another player"
      txBuilt := 0, txSigned := 0, txSubmitted := 0, refetches := 0 }
  else
    match env.accountFetch with
    | .error _ =>
        { ok := false, error := some "Failed to join table"
          txBuilt := 0, txSigned := 0, txSubmitted := 0, refetches := 0 }
    | .ok true =>
        { ok := true, error := none
          txBuilt := 0, txSigned := 0, txSubmitted := 0, refetches := 1 }
    | .ok false =>
        if !env.simulateOk then
          { ok := false, error := some "Simulation failed"
            txBuilt := 1, txSigned := 0, txSubmitted := 0, refetches := 0 }
        else if !env.sendOk then
          { ok := false, error := some "Failed to join table"
            txBuilt := 1, txSigned := 1, txSubmitted := 1, refetches := 0 }
        else if !env.confirmOk then
          { ok := false, error := some "Transaction timed out after 60s. Check your wallet or Solscan."
            txBuilt := 1, txSigned := 1, txSubmitted := 1, refetches := 0 }
        else
          { ok := true, error := none
            txBuilt := 1, txSigned := 1, txSubmitted := 1, refetches := 1 }

/-! ## Concrete inputs used by witnesses and counterexamples -/

/-- A session state in which a pipeline invocation is already in flight. -/
def busyState : PipelineState :=
  { myCards := [], isDecryptingCards := true, decryptFailed := false
    cardHandleMap := [], cache := none }

/-- An idle session state. -/
def idleState : PipelineState :=
  { myCards := [], isDecryptingCards := false, decryptFailed := false
    cardHandleMap := [], cache := none }

/-- Environment with a connected wallet, one held card and all external
calls succeeding. -/
def oneCardEnv : PipelineEnv :=
  { walletConnected := true
    playerFetch := .ok [⟨.bn 7, .bn 11⟩]
    grantOk := true
    decryptAt := fun _ => .ok (2, 5) }

/-- Environment whose player-record fetch returns an empty held-card
list. -/
def emptyHandEnv : PipelineEnv :=
  { walletConnected := true
    playerFetch := .ok []
    grantOk := true
    decryptAt := fun _ => .ok (0, 0) }

/-- A fetcher that throws on signature `s1` and decodes one event
elsewhere. -/
def fetchFailingOnS1 : String → Except Unit (List (Option GameEventPayload)) :=
  fun s => if s = "s1" then .error () else .ok [some (.cardPlaced "t" "P")]

/-- The same fetcher with the failure on `s1` replaced by a transaction
carrying no event logs. -/
def fetchEmptyOnS1 : String → Except Unit (List (Option GameEventPayload)) :=
  fun s => if s = "s1" then .ok [] else .ok [some (.cardPlaced "t" "P")]

/-! ## Shared helper lemmas -/

/-- One reducer step preserves `activePlayers ⊆ players`. -/
theorem activeSubset_step (now : Nat) (s : GameState) (e : GameEventPayload)
    (h : s.activePlayers ⊆ s.players) :
    (updateGameState now s e).activePlayers ⊆ (updateGameState now s e).players := by
  cases e with
  | playerJoined t p =>
      by_cases hc : p ∈ s.players
      · simpa [updateGameState, hc] using h
      · intro a ha
        simp [updateGameState, hc] at ha ⊢
        rcases ha with ha | ha
        · exact Or.inl (h ha)
        · exact Or.inr ha
  | playerEleminated t p =>
      intro a ha
      simp only [updateGameState] at ha ⊢
      exact h (List.mem_of_mem_filter ha)
  | liarsTableCreated t => exact h
  | suffleCardsForPlayer t p n => exact h
  | roundStarted t => exact h
  | tableTrun t p => exact h
  | cardPlaced t p => exact h
  | liarCalled t c => exact h
  | emptyBulletFired t p => exact h
  | gameOver t => exact h
  | gameWinner t p => exact h

/-- Replacing a per-signature fetch failure by an empty fetched body does
not change the events a batch produces: a failure only skips that
signature. -/
theorem processSigs_skip_failure
    (f g : String → Except Unit (List (Option GameEventPayload))) (sig : String)
    (hagree : ∀ s', s' ≠ sig → f s' = g s')
    (hf : f sig = .error ()) (hg : g sig = .ok []) :
    ∀ l : List SigInfo, processSigs f l = processSigs g l := by
  intro l
  induction l with
  | nil => rfl
  | cons a rest ih =>
      by_cases ha : a.signature = sig
      · simp [processSigs, ha, hf, hg, ih]
      · simp [processSigs, hagree _ ha, ih]

/-! ## Claim theorems -/

/-- Claim C1, counterexample: an invocation of the card-decryption pipeline
that starts while a previous one is in flight (`isDecryptingCards = true`)
is not a no-op — it performs the player-record fetch, submits an
access-grant transaction and returns a non-empty list. -/
theorem C1_counterexample :
    busyState.isDecryptingCards = true ∧
    (decryptMyCards oneCardEnv busyState).fetches = 1 ∧
    (decryptMyCards oneCardEnv busyState).grants = 1 ∧
    (decryptMyCards oneCardEnv busyState).ret = [⟨2, 5⟩] :=
  ⟨rfl, rfl, rfl, rfl⟩

/-- Claim C1, amended: `decryptMyCards` performs no re-entry check — with a
connected wallet its behaviour is independent of the in-flight flag, so a
re-entrant call repeats the whole pipeline; duplicate triggering is
prevented only at the trigger site, where the auto-decrypt effect does
nothing while `isDecryptingCards` is set. -/
theorem C1_pipeline_no_reentry_guard (env : PipelineEnv) (st : PipelineState)
    (b b' : Bool) (hconn : env.walletConnected = true) :
    decryptMyCards env { st with isDecryptingCards := b } =
      decryptMyCards env { st with isDecryptingCards := b' } ∧
    ∀ tenv : TriggerEnv, tenv.isDecryptingCards = true →
      autoDecryptTrigger tenv = .idle := by
  constructor
  · simp [decryptMyCards, hconn]
  · intro tenv ht
    simp [autoDecryptTrigger, ht]

/-- Claim C1, witness for the amended theorem at a concrete environment. -/
theorem C1_pipeline_no_reentry_guard_witness :
    decryptMyCards oneCardEnv { idleState with isDecryptingCards := true } =
      decryptMyCards oneCardEnv { idleState with isDecryptingCards := false } ∧
    autoDecryptTrigger
      { hasPublicKey := true, myEncryptedCards := [⟨.bn 7, .bn 11⟩], myCards := []
        isDecryptingCards := true, decryptFailed := false, isPlaying := true
        cache := none } = .idle :=
  ⟨(C1_pipeline_no_reentry_guard oneCardEnv idleState true false rfl).1,
   (C1_pipeline_no_reentry_guard oneCardEnv idleState true false rfl).2 _ rfl⟩

/-- Claim C2, counterexample: applying a decoded TurnChanged event to the
initial empty state sets `currentTurn` to an identity that is not a member
of `players`, so the claimed invariant fails. -/
theorem C2_counterexample :
    ¬ StateInv (applyEvents (createInitialGameState "t") [(0, .tableTrun "t" "X")]) := by
  decide

/-- Claim C2, amended: for every sequence of decoded events applied from the
initial empty state, `activePlayers ⊆ players` holds; the reducer writes
`currentTurn` verbatim from the identity carried by a shuffle or turn event
with no membership check, so `currentTurn ∈ players` is not maintained. -/
theorem C2_activePlayers_subset (tid : String) (evs : List (Nat × GameEventPayload)) :
    (applyEvents (createInitialGameState tid) evs).activePlayers ⊆
      (applyEvents (createInitialGameState tid) evs).players := by
  suffices h : ∀ s : GameState, s.activePlayers ⊆ s.players →
      (applyEvents s evs).activePlayers ⊆ (applyEvents s evs).players by
    exact h _ (by simp [createInitialGameState])
  induction evs with
  | nil => exact fun s hs => hs
  | cons e rest ih =>
      exact fun s hs => ih _ (activeSubset_step e.1 s e.2 hs)

/-- Claim C2, witness for the amended theorem at a concrete event
sequence. -/
theorem C2_activePlayers_subset_witness :
    "A" ∈ (applyEvents (createInitialGameState "t")
      [(0, .playerJoined "t" "A"), (1, .playerJoined "t" "B"),
       (2, .playerEleminated "t" "B")]).players :=
  C2_activePlayers_subset "t"
    [(0, .playerJoined "t" "A"), (1, .playerJoined "t" "B"),
     (2, .playerEleminated "t" "B")] (by decide)

/-- Claim C3: on a fresh subscription, the first poll cycle emits zero
events, and when the listing returns at least one signature it ends
initialized with the cursor on the newest existing signature. -/
theorem C3_first_cycle_baseline (sigs : List SigInfo)
    (fetchTx : String → Except Unit (List (Option GameEventPayload)))
    (s : SigInfo) (rest : List SigInfo) (h : sigs = s :: rest) :
    (poll PollState.fresh sigs fetchTx).2 = [] ∧
    (poll PollState.fresh sigs fetchTx).1 =
      { lastSignature := some s.signature, isInitialized := true } := by
  subst h
  simp [poll, PollState.fresh]

/-- Claim C3, witness at a concrete listing. -/
theorem C3_first_cycle_baseline_witness :
    (poll PollState.fresh [⟨"sigA", false⟩] fetchFailingOnS1).2 = [] ∧
    (poll PollState.fresh [⟨"sigA", false⟩] fetchFailingOnS1).1 =
      { lastSignature := some "sigA", isInitialized := true } :=
  C3_first_cycle_baseline [⟨"sigA", false⟩] fetchFailingOnS1 ⟨"sigA", false⟩ [] rfl

/-- Claim C4: after baselining, a cycle whose listing is non-empty advances
the cursor to the newest signature of the batch for every fetch behaviour,
and a per-transaction fetch failure is equivalent to that transaction
carrying no events — it neither stalls the cursor nor aborts the batch. -/
theorem C4_cursor_advances (st : PollState) (sigs : List SigInfo)
    (f g : String → Except Unit (List (Option GameEventPayload)))
    (hinit : st.isInitialized = true)
    (s0 : SigInfo) (rest : List SigInfo) (h : sigs = s0 :: rest)
    (sig : String)
    (hagree : ∀ s', s' ≠ sig → f s' = g s')
    (hf : f sig = .error ()) (hg : g sig = .ok []) :
    (poll st sigs f).1.lastSignature = some s0.signature ∧
    poll st sigs f = poll st sigs g := by
  subst h
  constructor
  · simp [poll, hinit]
  · simp [poll, hinit, processSigs_skip_failure f g sig hagree hf hg]

/-- Claim C4, witness: a two-signature batch where the older transaction's
fetch fails still advances the cursor to the newest signature and delivers
the same events as if the failing transaction were empty. -/
theorem C4_cursor_advances_witness :
    (poll ⟨some "s0", true⟩ [⟨"s2", false⟩, ⟨"s1", false⟩] fetchFailingOnS1).1.lastSignature =
      some "s2" ∧
    poll ⟨some "s0", true⟩ [⟨"s2", false⟩, ⟨"s1", false⟩] fetchFailingOnS1 =
      poll ⟨some "s0", true⟩ [⟨"s2", false⟩, ⟨"s1", false⟩] fetchEmptyOnS1 :=
  C4_cursor_advances ⟨some "s0", true⟩ [⟨"s2", false⟩, ⟨"s1", false⟩]
    fetchFailingOnS1 fetchEmptyOnS1 rfl ⟨"s2", false⟩ [⟨"s1", false⟩] rfl "s1"
    (fun s' hs' => by simp [fetchFailingOnS1, fetchEmptyOnS1, hs'])
    (by simp [fetchFailingOnS1]) (by simp [fetchEmptyOnS1])

/-- Claim C5: applying the same PlayerJoined or PlayerEliminated event twice
yields the state obtained by applying it once — duplicate joins do not
duplicate the identity, duplicate eliminations change nothing. -/
theorem C5_join_eliminate_idempotent (s : GameState) (t p : String) (n n' : Nat) :
    updateGameState n' (updateGameState n s (.playerJoined t p)) (.playerJoined t p) =
      updateGameState n s (.playerJoined t p) ∧
    updateGameState n' (updateGameState n s (.playerEleminated t p)) (.playerEleminated t p) =
      updateGameState n s (.playerEleminated t p) := by
  constructor
  · by_cases hc : p ∈ s.players <;> simp [updateGameState, hc]
  · simp [updateGameState, List.filter_filter]

/-- Claim C9: a CardsShuffledFor event carrying next identity `x` followed
immediately by a TurnChanged event carrying `y` leaves `currentTurn = y`. -/
theorem C9_turnChanged_wins (s : GameState) (t t' p x y : String) (n n' : Nat) :
    (updateGameState n'
      (updateGameState n s (.suffleCardsForPlayer t p x))
      (.tableTrun t' y)).currentTurn = some y := by
  simp [updateGameState]

/-- Claim C6, counterexample: a stored entry whose fingerprint equals the
one freshly computed from the current handle list but whose cached card
list is empty is evicted and `load` returns none, instead of returning the
cached list as claimed. -/
theorem C6_counterexample :
    (CardCache.mk (getEncryptedFingerprint []) []).fingerprint =
      getEncryptedFingerprint [] ∧
    loadCachedCards (some (CardCache.mk (getEncryptedFingerprint []) [])) [] =
      (none, none) :=
  ⟨rfl, rfl⟩

/-- Claim C6, amended: `load` returns the cached list exactly when the
stored fingerprint equals the one freshly computed from the current handles
AND the cached list is non-empty; on a mismatch, an empty cached list, or a
missing entry it returns none and the stored entry is evicted. -/
theorem C6_load_cache_behaviour (stored : Option CardCache) (hs : List EncCard) :
    (stored = none → loadCachedCards stored hs = (none, none)) ∧
    (∀ c, stored = some c → c.fingerprint = getEncryptedFingerprint hs →
      c.cards ≠ [] → loadCachedCards stored hs = (some c.cards, some c)) ∧
    (∀ c, stored = some c →
      (c.fingerprint ≠ getEncryptedFingerprint hs ∨ c.cards = []) →
      loadCachedCards stored hs = (none, none)) := by
  refine ⟨fun h => by simp [h, loadCachedCards], ?_, ?_⟩
  · intro c hc hfp hne
    subst hc
    have hlen : 0 < c.cards.length := List.length_pos.mpr hne
    simp [loadCachedCards, hfp, hlen]
  · intro c hc hbad
    subst hc
    rcases hbad with hfp | hnil
    · simp [loadCachedCards, hfp]
    · simp [loadCachedCards, hnil]

/-- Claim C6, witness for the amended theorem: a matching non-empty entry is
returned, and an entry stored for a different handle list is evicted. -/
theorem C6_load_cache_behaviour_witness :
    loadCachedCards
      (some ⟨getEncryptedFingerprint [⟨.bn 7, .bn 11⟩], [⟨2, 5⟩]⟩)
      [⟨.bn 7, .bn 11⟩] =
      (some [⟨2, 5⟩], some ⟨getEncryptedFingerprint [⟨.bn 7, .bn 11⟩], [⟨2, 5⟩]⟩) ∧
    loadCachedCards
      (some ⟨getEncryptedFingerprint [⟨.bn 7, .bn 11⟩], [⟨2, 5⟩]⟩)
      [⟨.bn 8, .bn 11⟩] =
      (none, none) :=
  ⟨(C6_load_cache_behaviour _ _).2.1 _ rfl rfl (by simp),
   (C6_load_cache_behaviour _ _).2.2 _ rfl (Or.inl (by decide))⟩

/-- Claim C7, counterexample: a failure of the very first liveness probe
(the mount-time check) sets the classifier to `disconnected`, not to
`reconnecting` as claimed for exactly one consecutive failure. -/
theorem C7_counterexample :
    (runHealth [false]).status = .disconnected ∧
    ConnectionStatus.disconnected ≠ ConnectionStatus.reconnecting :=
  ⟨rfl, by decide⟩

/-- Claim C7, amended: the classifier starts `connected`; every probe
success resets the failure counter and sets `connected`; a failure of the
initial mount-time probe sets `disconnected` directly (with failure count
1); on the periodic probes, exactly one consecutive failure sets
`reconnecting` and two or more consecutive failures set `disconnected`. -/
theorem C7_health_classifier :
    (runHealth []).status = .connected ∧
    (∀ ps, (runHealth (ps ++ [true])).status = .connected ∧
      (runHealth (ps ++ [true])).failCount = 0) ∧
    runHealth [false] = { status := .disconnected, failCount := 1 } ∧
    (∀ st : HealthState, st.failCount = 0 →
      (periodicHealthCheck false st).status = .reconnecting) ∧
    (∀ st : HealthState, 1 ≤ st.failCount →
      (periodicHealthCheck false st).status = .disconnected) := by
  refine ⟨rfl, ?_, rfl, ?_, ?_⟩
  · intro ps
    cases ps with
    | nil => exact ⟨rfl, rfl⟩
    | cons p rest =>
        simp [runHealth, List.foldl_append, periodicHealthCheck]
  · intro st h
    simp [periodicHealthCheck, h]
  · intro st h
    have h2 : 2 ≤ st.failCount + 1 := by omega
    simp [periodicHealthCheck, h2]

/-- Claim C7, witness for the amended theorem at concrete probe
sequences. -/
theorem C7_health_classifier_witness :
    (runHealth [false, false, true]).status = .connected ∧
    (periodicHealthCheck false { status := .connected, failCount := 0 }).status =
      .reconnecting ∧
    (periodicHealthCheck false { status := .reconnecting, failCount := 1 }).status =
      .disconnected :=
  ⟨(C7_health_classifier.2.1 [false, false]).1,
   C7_health_classifier.2.2.2.1 _ rfl,
   C7_health_classifier.2.2.2.2 _ (by decide)⟩

/-- Claim C8, counterexample: when the fetched player record holds no
cards, the pipeline returns the empty list with the failure flag left
unset (`decryptFailed = false`) and no access-grant submitted — no
`NoCardsAvailable` failure is surfaced. -/
theorem C8_counterexample :
    (decryptMyCards emptyHandEnv idleState).ret = [] ∧
    (decryptMyCards emptyHandEnv idleState).state.decryptFailed = false ∧
    (decryptMyCards emptyHandEnv idleState).grants = 0 :=
  ⟨rfl, rfl, rfl⟩

/-- Claim C8, amended: when the fetched held-card list is empty the
pipeline returns the empty list without submitting an access grant and
without setting the failure flag; `decryptFailed` is left exactly as it
was, and the in-flight flag is cleared. -/
theorem C8_empty_hand_silent (env : PipelineEnv) (st : PipelineState)
    (hconn : env.walletConnected = true) (hfetch : env.playerFetch = .ok []) :
    (decryptMyCards env st).ret = [] ∧
    (decryptMyCards env st).grants = 0 ∧
    (decryptMyCards env st).state.decryptFailed = st.decryptFailed ∧
    (decryptMyCards env st).state.isDecryptingCards = false := by
  simp [decryptMyCards, hconn, hfetch]

/-- Claim C8, witness for the amended theorem at a concrete environment. -/
theorem C8_empty_hand_silent_witness :
    (decryptMyCards emptyHandEnv busyState).ret = [] ∧
    (decryptMyCards emptyHandEnv busyState).grants = 0 ∧
    (decryptMyCards emptyHandEnv busyState).state.decryptFailed =
      busyState.decryptFailed ∧
    (decryptMyCards emptyHandEnv busyState).state.isDecryptingCards = false :=
  C8_empty_hand_silent emptyHandEnv busyState rfl rfl

/-- Claim C10: when the caller's derived player record already exists,
`joinTable` returns true having built, signed and submitted no
transaction, performing exactly one table refetch, with the user-facing
error string cleared. -/
theorem C10_join_existing_is_noop (env : JoinEnv)
    (hconn : env.walletConnected = true)
    (hchar : env.characterId ≠ "")
    (htaken : env.takenCharacters.contains env.characterId = false)
    (hacct : env.accountFetch = .ok true) :
    joinTable env =
      { ok := true, error := none, txBuilt := 0, txSigned := 0
        txSubmitted := 0, refetches := 1 } := by
  have hmem : env.characterId ∉ env.takenCharacters := by simpa using htaken
  simp [joinTable, hconn, hchar, hmem, hacct]

/-- Claim C10, witness at a concrete environment. -/
theorem C10_join_existing_is_noop_witness :
    joinTable
      { walletConnected := true, characterId := "bull", takenCharacters := ["cat"]
        accountFetch := .ok true, simulateOk := true, sendOk := true
        confirmOk := true } =
      { ok := true, error := none, txBuilt := 0, txSigned := 0
        txSubmitted := 0, refetches := 1 } :=
  C10_join_existing_is_noop _ rfl (by decide) (by decide) rfl

end LiarsBar
